import Mathlib

/-!
# Recorder app: storage service and capture-client timer

A shallow embedding of `backend/server.js` (the three `/api/recordings`
routes, the multer upload pipeline placed in front of the POST route, and the
final error-handling middleware) and of the timer/recording state of
`frontend/src/App.jsx`.

Modelling conventions:

* The SQLite table `recordings` is a list of rows in insertion order, together
  with the `sqlite_sequence` counter that `AUTOINCREMENT` maintains.
* The `uploads/` directory is a finite map from relative path to file content.
  The fetch route resolves `row.filepath` against `__dirname` while multer
  writes relative to the working directory; the two are taken to be the same
  directory (the server is started from its own folder).
* Everything the environment decides during one request is an explicit input:
  the value of `Date.now()`, the value of `CURRENT_TIMESTAMP`, how the disk
  write ends (completed, failed leaving the destination untouched or truncated,
  or broken off with multer's clean-up unlinking the destination), and whether
  the database call reports an error.
* A multipart body is the list of its file parts in order. `upload.single`
  admits one file in the field `video`; any other file part is refused with a
  `MulterError`, after which multer unlinks the file it had already stored.
* `createdAt` is the number of seconds since the epoch; SQLite stores the text
  `YYYY-MM-DD HH:MM:SS`, whose lexicographic order is the chronological one.
* The `:id` route parameter is the integer that SQLite's INTEGER affinity
  compares against the primary key.
-/

namespace Recorder

/-! ## Data model -/

/-- File content: a sequence of bytes. -/
abbrev Bytes := List (Fin 256)

/-- One row of the `recordings` table (server.js lines 48-56). -/
structure Recording where
  id : Nat
  filename : String
  filepath : String
  filesize : Nat
  createdAt : Nat
  deriving DecidableEq, Repr

/-- The server's persistent state: the table, its AUTOINCREMENT counter and
the files under the storage root. -/
structure Store where
  rows : List Recording
  seq : Nat
  blobs : String → Option Bytes

/-- The state right after bootstrap on a fresh machine: empty table, empty
`uploads/` folder. -/
def Store.empty : Store := ⟨[], 0, fun _ => none⟩

/-- Body of an HTTP response. -/
inductive Body where
  | error (msg : String)
  | uploaded (id : Nat) (message : String)
  | rows (rs : List Recording)
  | stream (contentType : String) (bytes : Bytes)
  deriving DecidableEq, Repr

/-- An HTTP response: status code and body. -/
structure Response where
  status : Nat
  body : Body
  deriving DecidableEq, Repr

/-- The file part of a multipart request, in the form field `video`. -/
structure FilePart where
  mimetype : String
  originalname : String
  data : Bytes
  deriving DecidableEq, Repr

/-- An upload request as `upload.single('video')` expects it: at most one file
part, in the field `video`. -/
structure UploadReq where
  file : Option FilePart
  deriving DecidableEq, Repr

/-- A file part as it arrives in an arbitrary multipart body: the form field it
was sent in, and the file. -/
structure FormFile where
  fieldname : String
  file : FilePart
  deriving DecidableEq, Repr

/-- The file parts of an upload request, in body order. -/
def UploadReq.parts (req : UploadReq) : List FormFile :=
  match req.file with
  | none => []
  | some f => [⟨"video", f⟩]

/-- How the disk write performed by `multer.diskStorage` ends. `ok`: the whole
payload is stored. `failed`: the write reports an error and the destination is
left untouched (`none`) or holding truncated content (`some bytes`).
`removed`: the upload breaks off and multer's clean-up unlinks the
destination file. -/
inductive WriteOutcome where
  | ok
  | failed (leftover : Option Bytes)
  | removed
  deriving DecidableEq, Repr

/-- What the environment decides during one upload request. -/
structure Env where
  /-- The value of `Date.now()` when the filename is generated. -/
  clock : Nat
  /-- The value of `CURRENT_TIMESTAMP` when the row is inserted. -/
  now : Nat
  /-- Outcome of the disk write. -/
  write : WriteOutcome
  /-- Whether `db.run` reports an error to its callback. -/
  dbErr : Bool
  deriving DecidableEq, Repr

/-- The errors that reach the error-handling middleware. -/
inductive ServerError where
  | multerError (code : String)
  | plainError (message : String)
  deriving DecidableEq, Repr

/-- `req.file` as multer's disk storage fills it in. -/
structure StoredFile where
  filename : String
  path : String
  size : Nat
  deriving DecidableEq, Repr

/-! ## Upload pipeline (server.js lines 26-42, 66-83, 117-122) -/

/-- JavaScript `s.startsWith(p)`. -/
def startsWith (s p : String) : Bool := p.data.isPrefixOf s.data

/-- `storage.filename`: the name is derived from `Date.now()` only. -/
def storageFilename (clock : Nat) : String :=
  "recording-" ++ toString clock ++ ".webm"

/-- `path.join('uploads/', filename)`. -/
def storagePath (filename : String) : String := "uploads/" ++ filename

/-- `upload.fileFilter`: accept exactly the declared types starting with
`video/`; anything else is reported as a plain `Error`. -/
def fileFilter (file : FilePart) : Except ServerError Bool :=
  if startsWith file.mimetype "video/" then .ok true
  else .error (.plainError "Only video files allowed")

/-- Writing a file replaces whatever was stored under that path. -/
def writeBlob (blobs : String → Option Bytes) (path : String) (data : Bytes) :
    String → Option Bytes :=
  fun q => if q = path then some data else blobs q

/-- Unlinking a file: the path no longer names a blob. -/
def removeBlob (blobs : String → Option Bytes) (path : String) : String → Option Bytes :=
  fun q => if q = path then none else blobs q

/-- `upload.single('video')` on the file parts of a multipart body. Only one
file, in the field `video`, is admitted; it goes through the filter and is then
streamed to disk. Any other file part is refused with the `MulterError`
`LIMIT_UNEXPECTED_FILE`, and multer then unlinks the file it had stored for
this request. Returns the store after the disk effects and either `req.file`
(possibly undefined) or the error handed to `next`. -/
def uploadSingle (s : Store) (env : Env) (parts : List FormFile) :
    Store × Except ServerError (Option StoredFile) :=
  match parts with
  | [] => (s, .ok none)
  | p :: rest =>
    if p.fieldname ≠ "video" then (s, .error (.multerError "LIMIT_UNEXPECTED_FILE"))
    else
      match fileFilter p.file with
      | .error e => (s, .error e)
      | .ok false =>
        match rest with
        | [] => (s, .ok none)
        | _ :: _ => (s, .error (.multerError "LIMIT_UNEXPECTED_FILE"))
      | .ok true =>
        let filename := storageFilename env.clock
        let path := storagePath filename
        match env.write with
        | .ok =>
          match rest with
          | [] =>
            ({ s with blobs := writeBlob s.blobs path p.file.data },
              .ok (some ⟨filename, path, p.file.data.length⟩))
          | _ :: _ =>
            ({ s with blobs := removeBlob s.blobs path },
              .error (.multerError "LIMIT_UNEXPECTED_FILE"))
        | .failed none => (s, .error (.plainError "write failed"))
        | .failed (some junk) =>
          ({ s with blobs := writeBlob s.blobs path junk },
            .error (.plainError "write failed"))
        | .removed =>
          ({ s with blobs := removeBlob s.blobs path },
            .error (.plainError "request aborted"))

/-- Largest id present in the table (0 when empty). -/
def maxId (rows : List Recording) : Nat :=
  rows.foldr (fun r m => max r.id m) 0

/-- The rowid chosen by `INTEGER PRIMARY KEY AUTOINCREMENT`: one more than the
largest rowid that ever existed in the table. -/
def nextId (s : Store) : Nat := max s.seq (maxId s.rows) + 1

/-- The `INSERT INTO recordings (filename, filepath, filesize)` statement;
`createdAt` takes its default. Returns the new store and `this.lastID`. -/
def insertRecording (s : Store) (now : Nat) (f : StoredFile) : Store × Nat :=
  let id := nextId s
  ({ s with rows := s.rows ++ [⟨id, f.filename, f.path, f.size, now⟩], seq := id }, id)

/-- The route handler of `POST /api/recordings` (lines 66-83), run once multer
has set `req.file`. -/
def uploadHandler (s : Store) (env : Env) (file : Option StoredFile) : Store × Response :=
  match file with
  | none => (s, ⟨400, .error "No file uploaded"⟩)
  | some f =>
    if env.dbErr then (s, ⟨500, .error "Database error"⟩)
    else
      let (s1, id) := insertRecording s env.now f
      (s1, ⟨200, .uploaded id "Upload successful"⟩)

/-- The error-handling middleware (lines 117-122). -/
def errorMiddleware (error : ServerError) : Response :=
  match error with
  | .multerError _ => ⟨400, .error "File too large"⟩
  | .plainError _ => ⟨500, .error "Server error"⟩

/-- `POST /api/recordings` on an arbitrary multipart body: multer, then the
handler, with errors routed to the error middleware. -/
def postMultipart (s : Store) (env : Env) (parts : List FormFile) : Store × Response :=
  match uploadSingle s env parts with
  | (s1, .error e) => (s1, errorMiddleware e)
  | (s1, .ok file) => uploadHandler s1 env file

/-- `POST /api/recordings` on a request with at most one file part, in the
field `video`. -/
def postRecordings (s : Store) (env : Env) (req : UploadReq) : Store × Response :=
  postMultipart s env req.parts

/-! ## List and fetch (server.js lines 86-114) -/

/-- `SELECT * FROM recordings ORDER BY createdAt DESC`. -/
def selectAllOrdered (s : Store) : List Recording :=
  s.rows.insertionSort (fun a b => a.createdAt ≥ b.createdAt)

/-- `GET /api/recordings`; `err` is the error flag passed to the `db.all`
callback. -/
def getRecordings (s : Store) (err : Bool) : Response :=
  if err then ⟨500, .error "Database error"⟩
  else ⟨200, .rows (selectAllOrdered s)⟩

/-- `SELECT * FROM recordings WHERE id = ?` through `db.get`: the first
matching row. -/
def selectById (s : Store) (id : Nat) : Option Recording :=
  s.rows.find? (fun r => r.id == id)

/-- `GET /api/recordings/:id`; `err` is the error flag passed to the `db.get`
callback. -/
def getRecording (s : Store) (err : Bool) (id : Nat) : Response :=
  match err, selectById s id with
  | true, _ => ⟨404, .error "Recording not found"⟩
  | false, none => ⟨404, .error "Recording not found"⟩
  | false, some row =>
    match s.blobs row.filepath with
    | none => ⟨404, .error "File not found"⟩
    | some bytes => ⟨200, .stream "video/webm" bytes⟩

/-! ## Request sequences -/

/-- A request to the storage service together with what the environment does
while it is served. -/
inductive Request where
  | upload (env : Env) (req : UploadReq)
  | multipart (env : Env) (parts : List FormFile)
  | list (err : Bool)
  | fetch (err : Bool) (id : Nat)

/-- Serve one request. -/
def serve (s : Store) : Request → Store × Response
  | .upload env req => postRecordings s env req
  | .multipart env parts => postMultipart s env parts
  | .list err => (s, getRecordings s err)
  | .fetch err id => (s, getRecording s err id)

/-- Serve a sequence of requests one after the other; the final store. -/
def serveAll (s : Store) : List Request → Store
  | [] => s
  | r :: rs => serveAll (serve s r).1 rs

/-- Every row's `filepath` names a file that exists under the storage root. -/
def NoOrphanRows (s : Store) : Prop :=
  ∀ r ∈ s.rows, (s.blobs r.filepath).isSome = true

/-- The row an accepted upload inserts. -/
def newRow (s : Store) (env : Env) (file : FilePart) : Recording :=
  ⟨nextId s, storageFilename env.clock, storagePath (storageFilename env.clock),
    file.data.length, env.now⟩

/-- A store with one row whose blob is on disk. -/
def oneRecording : Store :=
  ⟨[⟨1, "recording-5.webm", "uploads/recording-5.webm", 2, 100⟩], 1,
    writeBlob (fun _ => none) "uploads/recording-5.webm" [7, 9]⟩

/-! ## Capture client timer (App.jsx lines 118-186) -/

/-- The two pieces of React state that drive the recording controls. -/
structure ClientState where
  isRecording : Bool
  timer : Nat
  deriving DecidableEq, Repr

/-- Initial state: `useState(false)`, `useState(0)`. -/
def ClientState.init : ClientState := ⟨false, 0⟩

/-- What can happen to the client state. -/
inductive ClientEvent where
  | start
  | stop
  | tick
  deriving DecidableEq, Repr

/-- A successful `startRecording`: `setIsRecording(true); setTimer(0)`. -/
def startRecording (_ : ClientState) : ClientState := ⟨true, 0⟩

/-- The function `stopRecording`: only acts while recording. -/
def stopRecording (c : ClientState) : ClientState :=
  if c.isRecording then { c with isRecording := false } else c

/-- One second elapsing under the timer effect: the interval exists only while
`isRecording && timer < 180`, and its callback increments the timer. -/
def timerTick (c : ClientState) : ClientState :=
  if c.isRecording && decide (c.timer < 180) then { c with timer := c.timer + 1 } else c

/-- One transition of the client. -/
def clientStep (c : ClientState) : ClientEvent → ClientState
  | .start => startRecording c
  | .stop => stopRecording c
  | .tick => timerTick c

/-- Run a sequence of events from a state. -/
def clientRun (c : ClientState) (es : List ClientEvent) : ClientState :=
  es.foldl clientStep c

/-- The banner condition of `RecordingControls`: `timer >= 180`. -/
def maximumTimeReached (c : ClientState) : Bool := decide (c.timer ≥ 180)

/-! ## Basic facts about the pipeline -/

/-- Every id in the table is bounded by `maxId`. -/
lemma le_maxId {rows : List Recording} {r : Recording} (h : r ∈ rows) : r.id ≤ maxId rows := by
  induction rows with
  | nil => cases h
  | cons a t ih =>
    simp only [maxId, List.foldr_cons]
    rcases List.mem_cons.mp h with rfl | h
    · exact le_max_left _ _
    · exact le_trans (ih h) (le_max_right _ _)

/-- The id chosen for the next row is not in the table. -/
lemma nextId_fresh (s : Store) {r : Recording} (h : r ∈ s.rows) : r.id ≠ nextId s := by
  have h1 := le_maxId h
  have h2 : maxId s.rows ≤ max s.seq (maxId s.rows) := le_max_right _ _
  unfold nextId
  omega

/-- What an accepted upload does: write the file, append one row, answer 200
with the new id. -/
lemma postRecordings_accepted (s : Store) (env : Env) (file : FilePart)
    (hty : startsWith file.mimetype "video/" = true) (hw : env.write = .ok)
    (hdb : env.dbErr = false) :
    postRecordings s env ⟨some file⟩ =
      (⟨s.rows ++ [newRow s env file], nextId s,
          writeBlob s.blobs (storagePath (storageFilename env.clock)) file.data⟩,
        ⟨200, .uploaded (nextId s) "Upload successful"⟩) := by
  simp [postRecordings, postMultipart, UploadReq.parts, uploadSingle, fileFilter, hty, hw, uploadHandler, hdb,
    insertRecording, newRow, nextId]

/-- An upload whose declared type is not a video type never touches the store
and ends in the error middleware with a plain error. -/
lemma postRecordings_wrong_type (s : Store) (env : Env) (file : FilePart)
    (hty : startsWith file.mimetype "video/" = false) :
    postRecordings s env ⟨some file⟩ = (s, ⟨500, .error "Server error"⟩) := by
  simp [postRecordings, postMultipart, UploadReq.parts, uploadSingle, fileFilter, hty, errorMiddleware]

/-- An upload without a file part is answered by the handler's own guard. -/
lemma postRecordings_no_file (s : Store) (env : Env) :
    postRecordings s env ⟨none⟩ = (s, ⟨400, .error "No file uploaded"⟩) := by
  simp [postRecordings, postMultipart, UploadReq.parts, uploadSingle, uploadHandler]

/-! ## Claims about the upload route -/

/-- C1: the claim asks for status 400 when the declared media type does not
begin with `video/`. On the code the filter's plain `Error` falls through the
`MulterError` test of the error middleware, so every such upload is answered
with status 500 and body `Server error`. -/
theorem C1_wrong_type_answers_500 (s : Store) (env : Env) (file : FilePart)
    (hty : startsWith file.mimetype "video/" = false) :
    (postRecordings s env ⟨some file⟩).2 = ⟨500, .error "Server error"⟩ ∧
      (postRecordings s env ⟨some file⟩).2.status ≠ 400 := by
  rw [postRecordings_wrong_type s env file hty]
  exact ⟨rfl, by simp⟩

/-- C1 at a concrete request: a `text/plain` part. -/
theorem C1_wrong_type_answers_500_witness :
    startsWith "text/plain" "video/" = false ∧
      (postRecordings Store.empty ⟨5, 100, .ok, false⟩ ⟨some ⟨"text/plain", "a.txt", [1]⟩⟩).2
        = ⟨500, .error "Server error"⟩ :=
  ⟨by decide,
    (C1_wrong_type_answers_500 Store.empty ⟨5, 100, .ok, false⟩ ⟨"text/plain", "a.txt", [1]⟩
      (by decide)).1⟩

/-- C2: two accepted uploads served one after the other always get distinct
ids, but when both observe the same `Date.now()` value the two rows carry the
same stored filename (and the same filepath), contrary to the claim. -/
theorem C2_same_clock_same_filename (s : Store) (e1 e2 : Env) (f1 f2 : FilePart)
    (h1 : startsWith f1.mimetype "video/" = true) (h2 : startsWith f2.mimetype "video/" = true)
    (hw1 : e1.write = .ok) (hw2 : e2.write = .ok)
    (hd1 : e1.dbErr = false) (hd2 : e2.dbErr = false)
    (hclock : e1.clock = e2.clock) :
    ∃ r1 r2 : Recording,
      (serveAll s [.upload e1 ⟨some f1⟩, .upload e2 ⟨some f2⟩]).rows = s.rows ++ [r1, r2] ∧
      r1.id ≠ r2.id ∧ r1.filename = r2.filename ∧ r1.filepath = r2.filepath := by
  refine ⟨newRow s e1 f1, newRow (postRecordings s e1 ⟨some f1⟩).1 e2 f2, ?_, ?_, ?_, ?_⟩
  · simp only [serveAll, serve]
    rw [postRecordings_accepted _ e2 f2 h2 hw2 hd2, postRecordings_accepted s e1 f1 h1 hw1 hd1]
    simp
  · rw [postRecordings_accepted s e1 f1 h1 hw1 hd1]
    intro h
    have hmem : newRow s e1 f1 ∈ s.rows ++ [newRow s e1 f1] := by simp
    exact nextId_fresh ⟨s.rows ++ [newRow s e1 f1], nextId s, _⟩ hmem h
  · simp [newRow, hclock]
  · simp [newRow, hclock]

/-- C2 at a concrete pair of uploads on the empty store, both at clock 5. -/
theorem C2_same_clock_same_filename_witness :
    ∃ r1 r2 : Recording,
      (serveAll Store.empty
        [.upload ⟨5, 100, .ok, false⟩ ⟨some ⟨"video/webm", "a.webm", [1]⟩⟩,
         .upload ⟨5, 100, .ok, false⟩ ⟨some ⟨"video/webm", "b.webm", [2]⟩⟩]).rows
        = Store.empty.rows ++ [r1, r2] ∧
      r1.id ≠ r2.id ∧ r1.filename = r2.filename ∧ r1.filepath = r2.filepath :=
  C2_same_clock_same_filename Store.empty ⟨5, 100, .ok, false⟩ ⟨5, 100, .ok, false⟩
    ⟨"video/webm", "a.webm", [1]⟩ ⟨"video/webm", "b.webm", [2]⟩
    (by decide) (by decide) rfl rfl rfl rfl rfl

/-- C3: on the empty store, upload the one-byte payload `[1]` (it gets id 1),
then upload `[2]` while `Date.now()` still reads the same millisecond. The
second write lands on the same path, so fetching id 1 succeeds but streams
`[2]`, not the payload uploaded for id 1. -/
theorem C3_fetch_returns_other_payload :
    (postRecordings Store.empty ⟨5, 100, .ok, false⟩
        ⟨some ⟨"video/webm", "a.webm", [1]⟩⟩).2 = ⟨200, .uploaded 1 "Upload successful"⟩ ∧
    getRecording
      (serveAll Store.empty
        [.upload ⟨5, 100, .ok, false⟩ ⟨some ⟨"video/webm", "a.webm", [1]⟩⟩,
         .upload ⟨5, 101, .ok, false⟩ ⟨some ⟨"video/webm", "b.webm", [2]⟩⟩]) false 1
      = ⟨200, .stream "video/webm" [2]⟩ := by
  constructor <;> decide

/-- C5: an accepted upload of a video payload answers 200 with the id the store
assigns (an id no existing row has), and the list served afterwards is the
previous list plus exactly one entry, which carries that id and whose
`filesize` is the payload's byte length. -/
theorem C5_upload_adds_one_entry (s : Store) (env : Env) (file : FilePart)
    (hty : startsWith file.mimetype "video/" = true) (hw : env.write = .ok)
    (hdb : env.dbErr = false) :
    ∃ id : Nat, ∃ r : Recording,
      (postRecordings s env ⟨some file⟩).2 = ⟨200, .uploaded id "Upload successful"⟩ ∧
      (∀ old ∈ s.rows, old.id ≠ id) ∧
      r.id = id ∧ r.filesize = file.data.length ∧
      ∃ before after : List Recording,
        getRecordings s false = ⟨200, .rows before⟩ ∧
        getRecordings (postRecordings s env ⟨some file⟩).1 false = ⟨200, .rows after⟩ ∧
        after.Perm (r :: before) := by
  refine ⟨nextId s, newRow s env file, ?_, ?_, rfl, rfl,
    selectAllOrdered s, selectAllOrdered (postRecordings s env ⟨some file⟩).1, ?_, ?_, ?_⟩
  · rw [postRecordings_accepted s env file hty hw hdb]
  · intro old hold
    exact nextId_fresh s hold
  · simp [getRecordings]
  · simp [getRecordings]
  · rw [postRecordings_accepted s env file hty hw hdb]
    unfold selectAllOrdered
    refine (List.perm_insertionSort _ _).trans ?_
    refine List.perm_append_singleton _ _ |>.trans ?_
    exact List.Perm.cons _ (List.perm_insertionSort _ _).symm

/-- C5 at a concrete upload: three bytes onto the empty store. -/
theorem C5_upload_adds_one_entry_witness :
    ∃ id : Nat, ∃ r : Recording,
      (postRecordings Store.empty ⟨5, 100, .ok, false⟩
        ⟨some ⟨"video/webm", "a.webm", [1, 2, 3]⟩⟩).2
        = ⟨200, .uploaded id "Upload successful"⟩ ∧
      (∀ old ∈ Store.empty.rows, old.id ≠ id) ∧
      r.id = id ∧ r.filesize = 3 ∧
      ∃ before after : List Recording,
        getRecordings Store.empty false = ⟨200, .rows before⟩ ∧
        getRecordings (postRecordings Store.empty ⟨5, 100, .ok, false⟩
          ⟨some ⟨"video/webm", "a.webm", [1, 2, 3]⟩⟩).1 false = ⟨200, .rows after⟩ ∧
        after.Perm (r :: before) :=
  C5_upload_adds_one_entry Store.empty ⟨5, 100, .ok, false⟩ ⟨"video/webm", "a.webm", [1, 2, 3]⟩
    (by decide) rfl rfl

/-- C6: an upload request with no file part, or with a file part whose declared
media type does not start with `video/`, is answered with an error status and
leaves the store (rows, counter and every blob) exactly as it was. -/
theorem C6_rejected_upload_leaves_store (s : Store) (env : Env) (req : UploadReq)
    (h : req.file = none ∨ ∃ f, req.file = some f ∧ startsWith f.mimetype "video/" = false) :
    (postRecordings s env req).1 = s ∧
      ∃ code msg, (postRecordings s env req).2 = ⟨code, .error msg⟩ ∧ 400 ≤ code := by
  obtain ⟨file⟩ := req
  rcases h with h | ⟨f, h, hty⟩
  · simp only at h
    subst h
    rw [postRecordings_no_file]
    exact ⟨rfl, 400, _, rfl, le_refl _⟩
  · simp only at h
    subst h
    rw [postRecordings_wrong_type s env f hty]
    exact ⟨rfl, 500, _, rfl, by decide⟩

/-- C6 at a concrete request: a `text/plain` part sent to the empty store. -/
theorem C6_rejected_upload_leaves_store_witness :
    (postRecordings Store.empty ⟨5, 100, .ok, false⟩
        ⟨some ⟨"text/plain", "a.txt", [1]⟩⟩).1 = Store.empty ∧
      ∃ code msg, (postRecordings Store.empty ⟨5, 100, .ok, false⟩
        ⟨some ⟨"text/plain", "a.txt", [1]⟩⟩).2 = ⟨code, .error msg⟩ ∧ 400 ≤ code :=
  C6_rejected_upload_leaves_store Store.empty ⟨5, 100, .ok, false⟩
    ⟨some ⟨"text/plain", "a.txt", [1]⟩⟩ (Or.inr ⟨_, rfl, by decide⟩)

/-! ## Claims about the list and fetch routes -/

/-- C4: the list route answers 200 with a permutation of the table (every row
exactly once, nothing filtered out) in which each entry's `createdAt` is
greater than or equal to that of the entry after it, whatever the insertion
order of the rows. -/
theorem C4_list_is_sorted_permutation (s : Store) :
    ∃ l : List Recording,
      getRecordings s false = ⟨200, .rows l⟩ ∧ l.Perm s.rows ∧
      l.Chain' (fun a b => a.createdAt ≥ b.createdAt) := by
  refine ⟨selectAllOrdered s, by simp [getRecordings], List.perm_insertionSort _ _, ?_⟩
  haveI : IsTotal Recording (fun a b => a.createdAt ≥ b.createdAt) :=
    ⟨fun a b => le_total b.createdAt a.createdAt⟩
  haveI : IsTrans Recording (fun a b => a.createdAt ≥ b.createdAt) :=
    ⟨fun _ _ _ hab hbc => le_trans hbc hab⟩
  exact (List.sorted_insertionSort (fun a b : Recording => a.createdAt ≥ b.createdAt)
    s.rows).chain'

/-- No row with the requested id means the lookup finds nothing, and
conversely. -/
lemma selectById_eq_none (s : Store) (id : Nat) :
    selectById s id = none ↔ ∀ r ∈ s.rows, r.id ≠ id := by
  simp [selectById, List.find?_eq_none]

/-- The lookup returns `r` exactly when `r` is the first row of the table that
carries the requested id. -/
lemma selectById_eq_some (s : Store) (id : Nat) (r : Recording) :
    selectById s id = some r ↔
      ∃ pre post, s.rows = pre ++ r :: post ∧ (∀ x ∈ pre, x.id ≠ id) ∧ r.id = id := by
  simp only [selectById, List.find?_eq_some, beq_iff_eq, Bool.not_eq_true']
  constructor
  · rintro ⟨hid, pre, post, hrows, hpre⟩
    exact ⟨pre, post, hrows, fun x hx => by simpa using hpre x hx, hid⟩
  · rintro ⟨pre, post, hrows, hpre, hid⟩
    exact ⟨hid, pre, post, hrows, fun x hx => by simpa using hpre x hx⟩

/-- C7, the claim as stated, fails: in `oneRecording` the row with id 1 exists
and its blob is on disk, yet when the `db.get` callback receives an error the
fetch of id 1 is answered 404 (`err || !row`). -/
theorem C7_counterexample_lookup_error :
    ¬ ((getRecording oneRecording true 1).status = 404 ↔
        ((∀ r ∈ oneRecording.rows, r.id ≠ 1) ∨
          ∃ r ∈ oneRecording.rows, r.id = 1 ∧ oneRecording.blobs r.filepath = none)) := by
  intro h
  have h404 : (getRecording oneRecording true 1).status = 404 := rfl
  have hno : ¬ ((∀ r ∈ oneRecording.rows, r.id ≠ 1) ∨
      ∃ r ∈ oneRecording.rows, r.id = 1 ∧ oneRecording.blobs r.filepath = none) := by
    decide
  exact hno (h.mp h404)

/-- C7, amended: when the metadata lookup completes (the `db.get` callback
receives no error), the fetch route answers 404 exactly when no row has the
requested id or the row with that id (the first such row of the table) has no
blob under its `filepath`; in every other case it answers 200 with media type
`video/webm` and the bytes of that row's blob. In particular an id carried by
no row yields 404. -/
theorem C7_fetch_404_iff_when_lookup_completes (s : Store) (err : Bool) (id : Nat)
    (herr : err = false) :
    ((getRecording s err id).status = 404 ↔
      ((∀ r ∈ s.rows, r.id ≠ id) ∨
        ∃ pre r post, s.rows = pre ++ r :: post ∧ (∀ x ∈ pre, x.id ≠ id) ∧ r.id = id ∧
          s.blobs r.filepath = none)) ∧
    ((getRecording s err id).status ≠ 404 →
      ∃ pre r post bytes, s.rows = pre ++ r :: post ∧ (∀ x ∈ pre, x.id ≠ id) ∧ r.id = id ∧
        s.blobs r.filepath = some bytes ∧
        getRecording s err id = ⟨200, .stream "video/webm" bytes⟩) ∧
    ((∀ r ∈ s.rows, r.id ≠ id) → (getRecording s err id).status = 404) := by
  subst herr
  cases hrow : selectById s id with
  | none =>
    have hnone := (selectById_eq_none s id).mp hrow
    have h404 : (getRecording s false id).status = 404 := by simp [getRecording, hrow]
    exact ⟨⟨fun _ => Or.inl hnone, fun _ => h404⟩, fun h => absurd h404 h, fun _ => h404⟩
  | some row =>
    obtain ⟨pre, post, hrows, hpre, hid⟩ := (selectById_eq_some s id row).mp hrow
    have hmem : row ∈ s.rows := by rw [hrows]; simp
    have hsome : ¬ ∀ r ∈ s.rows, r.id ≠ id := fun h => h row hmem hid
    have hfirst : ∀ pre2 r2 post2, s.rows = pre2 ++ r2 :: post2 → (∀ x ∈ pre2, x.id ≠ id) →
        r2.id = id → r2 = row := by
      intro pre2 r2 post2 h2 hpre2 hid2
      have := (selectById_eq_some s id r2).mpr ⟨pre2, post2, h2, hpre2, hid2⟩
      rw [hrow] at this
      exact (Option.some.inj this).symm
    cases hblob : s.blobs row.filepath with
    | none =>
      have h404 : (getRecording s false id).status = 404 := by
        simp [getRecording, hrow, hblob]
      exact ⟨⟨fun _ => Or.inr ⟨pre, row, post, hrows, hpre, hid, hblob⟩, fun _ => h404⟩,
        fun h => absurd h404 h, fun _ => h404⟩
    | some bytes =>
      have hresp : getRecording s false id = ⟨200, .stream "video/webm" bytes⟩ := by
        simp [getRecording, hrow, hblob]
      have hne : (getRecording s false id).status ≠ 404 := by rw [hresp]; simp
      refine ⟨⟨fun h => absurd h hne, ?_⟩,
        fun _ => ⟨pre, row, post, bytes, hrows, hpre, hid, hblob, hresp⟩,
        fun h => absurd h hsome⟩
      rintro (h | ⟨pre2, r2, post2, h2, hpre2, hid2, hb2⟩)
      · exact absurd h hsome
      · rw [hfirst pre2 r2 post2 h2 hpre2 hid2, hblob] at hb2
        cases hb2

/-- C7 amended, at concrete requests on `oneRecording` with a completed lookup:
id 2 is carried by no row and is answered 404; id 1 is answered 200 with the
two bytes of its blob. -/
theorem C7_fetch_404_iff_when_lookup_completes_witness :
    ((∀ r ∈ oneRecording.rows, r.id ≠ 2) ∧ (getRecording oneRecording false 2).status = 404) ∧
    ((getRecording oneRecording false 1).status ≠ 404 ∧
      ∃ pre r post bytes, oneRecording.rows = pre ++ r :: post ∧ (∀ x ∈ pre, x.id ≠ 1) ∧
        r.id = 1 ∧ oneRecording.blobs r.filepath = some bytes ∧
        getRecording oneRecording false 1 = ⟨200, .stream "video/webm" bytes⟩) :=
  ⟨⟨by decide, (C7_fetch_404_iff_when_lookup_completes oneRecording false 2 rfl).2.2 (by decide)⟩,
    ⟨by decide, (C7_fetch_404_iff_when_lookup_completes oneRecording false 1 rfl).2.1 (by decide)⟩⟩

/-- C8: when the database call reports an error, the upload handler and the
list route answer 500 `Database error`, but the fetch route answers 404
`Recording not found` (its guard is `err || !row`), for every store and id;
the claim asks for 500 there too. -/
theorem C8_fetch_db_error_answers_404 (s : Store) (env : Env) (f : StoredFile) (id : Nat) :
    (uploadHandler s { env with dbErr := true } (some f)).2 = ⟨500, .error "Database error"⟩ ∧
    getRecordings s true = ⟨500, .error "Database error"⟩ ∧
    getRecording s true id = ⟨404, .error "Recording not found"⟩ := by
  refine ⟨by simp [uploadHandler], by simp [getRecordings], ?_⟩
  unfold getRecording
  rfl

/-! ## The no-orphan-rows invariant -/

/-- Writing a file never makes another file disappear. -/
lemma writeBlob_isSome (blobs : String → Option Bytes) (p : String) (d : Bytes) (q : String)
    (h : (blobs q).isSome = true) : (writeBlob blobs p d q).isSome = true := by
  unfold writeBlob
  split <;> simp [h]

/-- The file just written exists. -/
lemma writeBlob_self (blobs : String → Option Bytes) (p : String) (d : Bytes) :
    writeBlob blobs p d p = some d := by
  simp [writeBlob]

/-- Unlinking one path leaves every other file in place. -/
lemma removeBlob_isSome (blobs : String → Option Bytes) (p q : String) (hq : q ≠ p)
    (h : (blobs q).isSome = true) : (removeBlob blobs p q).isSome = true := by
  simp [removeBlob, hq, h]

/-- Every effect the upload route can have on the store. Either the table is
untouched and the destination path is left alone, overwritten or unlinked, or
the write succeeded and exactly one row was appended for the file written. -/
lemma postMultipart_effect (s : Store) (env : Env) (parts : List FormFile) :
    (∃ blobs, (postMultipart s env parts).1 = ⟨s.rows, s.seq, blobs⟩ ∧
      (blobs = s.blobs ∨
        (∃ d, blobs = writeBlob s.blobs (storagePath (storageFilename env.clock)) d) ∨
        blobs = removeBlob s.blobs (storagePath (storageFilename env.clock)))) ∨
    (∃ f, env.write = .ok ∧
      (postMultipart s env parts).1 =
        ⟨s.rows ++ [newRow s env f], nextId s,
          writeBlob s.blobs (storagePath (storageFilename env.clock)) f.data⟩) := by
  cases parts with
  | nil => exact Or.inl ⟨s.blobs, by simp [postMultipart, uploadSingle, uploadHandler], Or.inl rfl⟩
  | cons p rest =>
    by_cases hf : p.fieldname = "video"
    · cases hty : startsWith p.file.mimetype "video/" with
      | false =>
        exact Or.inl ⟨s.blobs,
          by simp [postMultipart, uploadSingle, fileFilter, hf, hty], Or.inl rfl⟩
      | true =>
        cases hw : env.write with
        | failed leftover =>
          cases leftover with
          | none =>
            exact Or.inl ⟨s.blobs,
              by simp [postMultipart, uploadSingle, fileFilter, hf, hty, hw], Or.inl rfl⟩
          | some junk =>
            exact Or.inl ⟨_,
              by simp [postMultipart, uploadSingle, fileFilter, hf, hty, hw],
              Or.inr (Or.inl ⟨junk, rfl⟩)⟩
        | removed =>
          exact Or.inl ⟨_,
            by simp [postMultipart, uploadSingle, fileFilter, hf, hty, hw],
            Or.inr (Or.inr rfl)⟩
        | ok =>
          cases rest with
          | cons q more =>
            exact Or.inl ⟨_,
              by simp [postMultipart, uploadSingle, fileFilter, hf, hty, hw],
              Or.inr (Or.inr rfl)⟩
          | nil =>
            cases hdb : env.dbErr with
            | true =>
              exact Or.inl ⟨_,
                by simp [postMultipart, uploadSingle, fileFilter, hf, hty, hw, uploadHandler,
                  hdb],
                Or.inr (Or.inl ⟨p.file.data, rfl⟩)⟩
            | false =>
              exact Or.inr ⟨p.file, rfl,
                by simp [postMultipart, uploadSingle, fileFilter, hf, hty, hw, uploadHandler,
                  hdb, insertRecording, newRow, nextId]⟩
    · exact Or.inl ⟨s.blobs, by simp [postMultipart, uploadSingle, hf], Or.inl rfl⟩

/-- An upload whose disk write does not complete never inserts a row. -/
lemma postMultipart_rows_of_write_not_ok (s : Store) (env : Env) (parts : List FormFile)
    (hw : env.write ≠ .ok) : (postMultipart s env parts).1.rows = s.rows := by
  rcases postMultipart_effect s env parts with ⟨blobs, h, _⟩ | ⟨f, hok, _⟩
  · rw [h]
  · exact absurd hok hw

/-- The upload route preserves the invariant whenever its destination path is
not the `filepath` of an existing row. -/
lemma postMultipart_noOrphan_of_fresh (s : Store) (env : Env) (parts : List FormFile)
    (h : NoOrphanRows s)
    (hfresh : ∀ r ∈ s.rows, r.filepath ≠ storagePath (storageFilename env.clock)) :
    NoOrphanRows (postMultipart s env parts).1 := by
  rcases postMultipart_effect s env parts with ⟨blobs, heq, hb | ⟨d, hb⟩ | hb⟩ | ⟨f, _, heq⟩
  · rw [heq, hb]; exact h
  · rw [heq, hb]
    exact fun r hr => writeBlob_isSome _ _ _ _ (h r hr)
  · rw [heq, hb]
    exact fun r hr => removeBlob_isSome _ _ _ (hfresh r hr) (h r hr)
  · rw [heq]
    intro r hr
    rcases List.mem_append.mp hr with hr | hr
    · exact writeBlob_isSome _ _ _ _ (h r hr)
    · rw [List.mem_singleton.mp hr]
      simp [newRow, writeBlob_self]

/-- C9: the invariant fails on the code. On the empty store, upload the payload
`[1, 2]` with `Date.now()` reading 5 (row 1, blob `uploads/recording-5.webm`),
then let a second upload in the same millisecond break off so that multer's
clean-up unlinks its destination: row 1 is left without its blob and the fetch
of id 1 is answered 404 `File not found`. The same happens when the second
request carries a further file part that multer refuses. What does hold: an
upload whose disk write does not complete inserts no row, and an upload whose
destination path is not referenced by any existing row preserves the
invariant. -/
theorem C9_orphan_row_after_colliding_upload :
    (¬ NoOrphanRows (serveAll Store.empty
        [.upload ⟨5, 100, .ok, false⟩ ⟨some ⟨"video/webm", "a.webm", [1, 2]⟩⟩,
         .upload ⟨5, 100, .removed, false⟩ ⟨some ⟨"video/webm", "b.webm", [3, 4]⟩⟩]) ∧
      getRecording (serveAll Store.empty
        [.upload ⟨5, 100, .ok, false⟩ ⟨some ⟨"video/webm", "a.webm", [1, 2]⟩⟩,
         .upload ⟨5, 100, .removed, false⟩ ⟨some ⟨"video/webm", "b.webm", [3, 4]⟩⟩]) false 1
        = ⟨404, .error "File not found"⟩) ∧
    (¬ NoOrphanRows (serveAll Store.empty
        [.upload ⟨5, 100, .ok, false⟩ ⟨some ⟨"video/webm", "a.webm", [1, 2]⟩⟩,
         .multipart ⟨5, 100, .ok, false⟩
           [⟨"video", ⟨"video/webm", "b.webm", [3, 4]⟩⟩,
            ⟨"video", ⟨"video/webm", "c.webm", [5]⟩⟩]])) ∧
    (∀ (s : Store) (env : Env) (parts : List FormFile),
      env.write ≠ .ok → (postMultipart s env parts).1.rows = s.rows) ∧
    (∀ (s : Store) (env : Env) (parts : List FormFile),
      NoOrphanRows s →
      (∀ r ∈ s.rows, r.filepath ≠ storagePath (storageFilename env.clock)) →
      NoOrphanRows (postMultipart s env parts).1) := by
  refine ⟨⟨?_, by decide⟩, ?_, postMultipart_rows_of_write_not_ok,
    postMultipart_noOrphan_of_fresh⟩
  · unfold NoOrphanRows
    decide
  · unfold NoOrphanRows
    decide

/-- C9 at concrete inputs: an upload onto `oneRecording` whose write breaks off
after one byte inserts no row, and an upload onto `oneRecording` at clock 6,
whose destination no row references, keeps every row's blob in place even
though its destination is unlinked. -/
theorem C9_orphan_row_after_colliding_upload_witness :
    (postMultipart oneRecording ⟨6, 101, .failed (some [3]), false⟩
      [⟨"video", ⟨"video/webm", "b.webm", [3, 4]⟩⟩]).1.rows = oneRecording.rows ∧
    NoOrphanRows (postMultipart oneRecording ⟨6, 101, .removed, false⟩
      [⟨"video", ⟨"video/webm", "b.webm", [3, 4]⟩⟩]).1 :=
  ⟨C9_orphan_row_after_colliding_upload.2.2.1 _ _ _ (by decide),
    C9_orphan_row_after_colliding_upload.2.2.2 _ _ _
      (by unfold NoOrphanRows; decide) (by decide)⟩

/-! ## The capture client's timer -/

/-- No transition pushes the timer beyond 180. -/
lemma clientStep_timer_le (c : ClientState) (e : ClientEvent) (h : c.timer ≤ 180) :
    (clientStep c e).timer ≤ 180 := by
  cases e with
  | start => simp [clientStep, startRecording]
  | stop =>
    simp only [clientStep, stopRecording]
    split <;> simpa using h
  | tick =>
    simp only [clientStep, timerTick]
    split
    · rename_i hc
      simp only [Bool.and_eq_true, decide_eq_true_eq] at hc
      show c.timer + 1 ≤ 180
      omega
    · exact h

/-- The timer bound along any run. -/
lemma clientRun_timer_le (es : List ClientEvent) :
    ∀ c : ClientState, c.timer ≤ 180 → (clientRun c es).timer ≤ 180 := by
  induction es with
  | nil => intro c h; exact h
  | cons e es ih => intro c h; exact ih _ (clientStep_timer_le c e h)

/-- While recording below the limit, `n` ticks add `n` to the timer. -/
lemma clientRun_ticks (n : Nat) :
    ∀ k : Nat, k + n ≤ 180 →
      clientRun ⟨true, k⟩ (List.replicate n .tick) = ⟨true, k + n⟩ := by
  induction n with
  | zero => intro k _; rfl
  | succ n ih =>
    intro k hk
    have hlt : k < 180 := by omega
    have hstep : clientStep ⟨true, k⟩ .tick = ⟨true, k + 1⟩ := by
      simp [clientStep, timerTick, hlt]
    simp only [clientRun, List.replicate_succ, List.foldl_cons, hstep]
    have := ih (k + 1) (by omega)
    simp only [clientRun] at this
    rw [this]
    congr 1
    omega

/-- At the limit, ticks change nothing: the client stays in the recording
state. -/
lemma clientRun_ticks_at_limit (n : Nat) :
    clientRun ⟨true, 180⟩ (List.replicate n .tick) = ⟨true, 180⟩ := by
  induction n with
  | zero => rfl
  | succ n ih =>
    have hstep : clientStep ⟨true, 180⟩ .tick = ⟨true, 180⟩ := by
      simp [clientStep, timerTick]
    simp only [clientRun, List.replicate_succ, List.foldl_cons, hstep]
    simpa only [clientRun] using ih

/-- C10: in every state reachable from `(false, 0)` the timer is at most 180,
but the recording is not cut off there: after `start` and 180 or more ticks,
with no `stop`, the client is in the state `(true, 180)`, still recording
while the banner condition `timer >= 180` holds. -/
theorem C10_timer_capped_but_still_recording :
    (∀ es : List ClientEvent, (clientRun ClientState.init es).timer ≤ 180) ∧
    (∀ n : Nat,
      clientRun ClientState.init (.start :: List.replicate (180 + n) .tick) = ⟨true, 180⟩) ∧
    maximumTimeReached ⟨true, 180⟩ = true := by
  refine ⟨fun es => clientRun_timer_le es _ (by simp [ClientState.init]), ?_, by decide⟩
  intro n
  have h1 := clientRun_ticks 180 0 (by omega)
  have h2 := clientRun_ticks_at_limit n
  simp only [clientRun, Nat.zero_add] at h1 h2
  simp only [clientRun, List.foldl_cons, clientStep, startRecording, List.replicate_add,
    List.foldl_append, h1, h2]

end Recorder
